import Mathlib

/-!
Shallow embedding of the Log-Analytics service (src/main.py, src/models.py,
src/database.py) for verification of the spec's claims.

Modelling conventions:
- Timestamps are natural numbers counting seconds.  The source compares
  `datetime` values with `t > current_time - timedelta(seconds=60)`; over the
  integers this is equivalent to `current_time < t + 60`, which is the form
  used here (it avoids truncated subtraction on `Nat`).
- The database session is modelled as a `ServerState` holding the list of
  persisted logs, the list of persisted alerts, and the process-wide
  `recent_errors` list of src/main.py line 45.
- Ingestion of one request is sequential: the background tasks dispatched by
  `create_log` (anomaly check, broadcast) run to completion before the next
  request, and the single clock reading `now` of a request serves both as the
  stored record's timestamp and as `datetime.utcnow()` inside
  `check_for_anomalies`.
- Python dictionaries appear only as `log.dict()` of a `LogCreate` request
  body; that dict is modelled by `LogDict`, whose `id` field is `none`
  because `LogCreate` (src/models.py lines 5-13) has no `id` attribute.
-/

namespace LogAnalytics

/-- THRESHOLDS["error_burst"] of src/main.py line 40. -/
def error_burst : Nat := 5

/-- THRESHOLDS["burst_window"] of src/main.py line 41, in seconds. -/
def burst_window : Nat := 60

/-- Request body of POST /logs/ (class LogCreate, src/models.py lines 5-13). -/
structure LogCreate where
  level : String
  service : String
  message : String
  error_code : Option String
  stack_trace : Option String
deriving Repr, DecidableEq

/-- The Python dict obtained from `log.dict()` on a `LogCreate`.  Its keys are
exactly the five request fields; it never carries an `"id"` key, so the `id`
component below is `none` for every dict built from a request body.  The
`Option Nat` component models presence or absence of the `"id"` key so that
`log.get("id", 0)` (src/main.py line 73) can be embedded faithfully. -/
structure LogDict where
  level : String
  service : String
  message : String
  error_code : Option String
  stack_trace : Option String
  id : Option Nat
deriving Repr, DecidableEq

/-- Python `log.get("id", default)` on the dict. -/
def LogDict.get_id (d : LogDict) (default : Nat) : Nat :=
  d.id.getD default

/-- Python `log.dict()` applied to a `LogCreate`: the five request fields and
no `"id"` key. -/
def LogCreate.toDict (log : LogCreate) : LogDict :=
  { level := log.level, service := log.service, message := log.message,
    error_code := log.error_code, stack_trace := log.stack_trace, id := none }

/-- Row of the `logs` table (class Log, src/database.py lines 16-25).
`id` is the SQLite autoincrement primary key (first row gets id 1);
`timestamp` is the server-assigned insertion time. -/
structure LogRecord where
  id : Nat
  timestamp : Nat
  level : String
  service : String
  message : String
  error_code : Option String
  stack_trace : Option String
deriving Repr, DecidableEq

/-- Row of the `alerts` table (class Alert, src/database.py lines 27-36). -/
structure AlertRecord where
  id : Nat
  timestamp : Nat
  severity : String
  message : String
  log_id : Nat
  is_resolved : Bool
  resolved_at : Option Nat
deriving Repr, DecidableEq

/-- The keyword arguments passed to `Alert(**alert_data)` by
`check_for_anomalies` (src/main.py lines 70-74). -/
structure AlertData where
  severity : String
  message : String
  log_id : Nat
deriving Repr, DecidableEq

/-- Database plus the process-wide mutable state of src/main.py:
`recent_errors` (line 45) is the in-memory list of recent error arrival
times used for burst detection. -/
structure ServerState where
  logs : List LogRecord
  alerts : List AlertRecord
  recent_errors : List Nat
deriving Repr, DecidableEq

/-- Empty database, empty window: the state at process start. -/
def initialState : ServerState := ⟨[], [], []⟩

/-- create_alert (src/main.py lines 78-84): inserts a new alert row.  The
columns not supplied by the caller take their table defaults
(src/database.py lines 30-36): autoincrement `id`, `timestamp` defaulting to
the current time, `is_resolved` defaulting to False, `resolved_at` NULL. -/
def create_alert (alerts : List AlertRecord) (now : Nat) (a : AlertData) :
    List AlertRecord :=
  alerts ++ [{ id := alerts.length + 1, timestamp := now,
               severity := a.severity, message := a.message,
               log_id := a.log_id, is_resolved := false, resolved_at := none }]

/-- The f-string of src/main.py line 72. -/
def burstMessage (n : Nat) : String :=
  "Error burst detected: " ++ toString n ++ " errors in " ++
    toString burst_window ++ " seconds"

/-- check_for_anomalies (src/main.py lines 55-76).  `now` is
`datetime.utcnow()` read at line 60.  The prune at line 62 keeps `t` iff
`t > now - 60 s`, i.e. `now < t + burst_window`.  Returns the updated state
together with the `is_anomaly` flag. -/
def check_for_anomalies (log : LogDict) (now : Nat) (s : ServerState) :
    ServerState × Bool :=
  let pruned := s.recent_errors.filter (fun t => decide (now < t + burst_window))
  if log.level = "ERROR" then
    let errs := pruned ++ [now]
    if error_burst ≤ errs.length then
      ({ s with recent_errors := errs,
                alerts := create_alert s.alerts now
                  { severity := "HIGH",
                    message := burstMessage errs.length,
                    log_id := log.get_id 0 } }, true)
    else
      ({ s with recent_errors := errs }, false)
  else
    ({ s with recent_errors := pruned }, false)

/-- Payload broadcast to observers: `{"type": "new_log", "data": log.dict()}`
(src/main.py line 120).  The data component is the request dict, so it has
no `"id"` key and no timestamp. -/
structure BroadcastMsg where
  type : String
  data : LogDict
deriving Repr, DecidableEq

/-- A background task dispatched by create_log (src/main.py lines 117 and
120): the anomaly check on the request dict, or the broadcast of the
new-log message. -/
inductive TaskKind where
  | detect (payload : LogDict)
  | broadcast (msg : BroadcastMsg)
deriving Repr, DecidableEq

/-- create_log (src/main.py lines 108-131): persist the row, then dispatch
the anomaly check on `log.dict()` and the broadcast of
`{"type": "new_log", "data": log.dict()}`.  Returns the state after the
dispatched anomaly check has run, the stored record, and the message handed
to `broadcast_message`. -/
def create_log (log : LogCreate) (now : Nat) (s : ServerState) :
    ServerState × LogRecord × BroadcastMsg :=
  let db_log : LogRecord :=
    { id := s.logs.length + 1, timestamp := now, level := log.level,
      service := log.service, message := log.message,
      error_code := log.error_code, stack_trace := log.stack_trace }
  let s1 : ServerState := { s with logs := s.logs ++ [db_log] }
  let s2 := (check_for_anomalies log.toDict now s1).1
  (s2, db_log, { type := "new_log", data := log.toDict })

/-- create_log (src/main.py lines 108-131) with the outcome of the
synchronous persistence step (lines 111-114) made explicit.  The commit
happens first; a raised persistence error propagates out of the endpoint as
a server error, so execution never reaches the `add_task` calls of lines
117 and 120 and the error case carries no dispatched tasks.  On success the
row is stored and both background tasks are dispatched. -/
def create_log_request (commit_fails : Bool) (log : LogCreate) (now : Nat)
    (s : ServerState) : Except String (ServerState × List TaskKind) :=
  if commit_fails then
    Except.error "database commit failed"
  else
    let db_log : LogRecord :=
      { id := s.logs.length + 1, timestamp := now, level := log.level,
        service := log.service, message := log.message,
        error_code := log.error_code, stack_trace := log.stack_trace }
    Except.ok ({ s with logs := s.logs ++ [db_log] },
      [TaskKind.detect log.toDict,
       TaskKind.broadcast { type := "new_log", data := log.toDict }])

/-- One ingestion request: body plus the clock reading at which the server
processes it. -/
def ingest (s : ServerState) (r : LogCreate × Nat) : ServerState :=
  (create_log r.1 r.2 s).1

/-- State reached from process start after serving a sequence of
POST /logs/ requests in order. -/
def run_requests (reqs : List (LogCreate × Nat)) : ServerState :=
  reqs.foldl ingest initialState

/-- Response of GET /analytics/logs (src/main.py lines 167-193), restricted
to the integer counters.  The float `error_rate` and the `recent_errors`
excerpt of the same response are further views of the same `logs` list and
are not needed by any claim. -/
structure LogAnalyticsResult where
  total_logs : Nat
  error_count : Nat
  warning_count : Nat
deriving Repr, DecidableEq

/-- get_log_analytics (src/main.py lines 167-193): counts over the full
`logs` table. -/
def get_log_analytics (s : ServerState) : LogAnalyticsResult :=
  { total_logs := s.logs.length,
    error_count := (s.logs.filter (fun l => decide (l.level = "ERROR"))).length,
    warning_count := (s.logs.filter (fun l => decide (l.level = "WARNING"))).length }

/-- Response of GET /analytics/alerts (src/main.py lines 195-224), restricted
to the two counters the claims mention. -/
structure AlertAnalyticsResult where
  total_alerts : Nat
  active_alerts : Nat
deriving Repr, DecidableEq

/-- get_alert_analytics (src/main.py lines 195-224): `active_alerts` counts
rows with `is_resolved == False`. -/
def get_alert_analytics (s : ServerState) : AlertAnalyticsResult :=
  { total_alerts := s.alerts.length,
    active_alerts := (s.alerts.filter (fun a => decide (a.is_resolved = false))).length }

/-- A connected WebSocket observer.  `closed` records whether sending on it
raises (for instance because the channel is already closed). -/
structure Conn where
  cid : Nat
  closed : Bool
deriving Repr, DecidableEq

/-- The for-loop of broadcast_message (src/main.py lines 49-53), one
connection at a time: a successful send appends a delivery
`(connection id, message)`; a raising send is swallowed by the bare
`except:` and counted as one logged error.  The loop body never touches
`active_connections`. -/
def broadcastLoop (message : BroadcastMsg) :
    List Conn → List (Nat × BroadcastMsg) × Nat
  | [] => ([], 0)
  | c :: rest =>
      let r := broadcastLoop message rest
      if c.closed then (r.1, r.2 + 1) else ((c.cid, message) :: r.1, r.2)

/-- broadcast_message (src/main.py lines 47-53).  Returns the deliveries
made, the number of delivery errors logged, and the `active_connections`
list after the call — which the function never mutates. -/
def broadcast_message (message : BroadcastMsg) (active_connections : List Conn) :
    List (Nat × BroadcastMsg) × Nat × List Conn :=
  ((broadcastLoop message active_connections).1,
   (broadcastLoop message active_connections).2,
   active_connections)

/-- Projection of an ingestion request to the two components
`check_for_anomalies` reads: the level of the request body and the clock
reading at which it is processed. -/
structure Event where
  level : String
  time : Nat
deriving Repr, DecidableEq

/-- The event seen by the detector for a request. -/
def reqEvent (r : LogCreate × Nat) : Event := ⟨r.1.level, r.2⟩

/-- Effect of one call of `check_for_anomalies` on the `recent_errors`
list alone: prune, then append the arrival time when the event is an
error (src/main.py lines 62-65). -/
def stepWindow (errs : List Nat) (e : Event) : List Nat :=
  let pruned := errs.filter (fun t => decide (e.time < t + burst_window))
  if e.level = "ERROR" then pruned ++ [e.time] else pruned

/-- `recent_errors` after a sequence of detector calls. -/
def runWindow (errs : List Nat) (es : List Event) : List Nat :=
  es.foldl stepWindow errs

/-- Arrival times of the ERROR-level events of a sequence, in order. -/
def errorTimes (es : List Event) : List Nat :=
  (es.filter (fun e => decide (e.level = "ERROR"))).map (fun e => e.time)

/-- Clock reading of the last event of the list, or `d` if there is none. -/
def lastTime (d : Nat) : List Event → Nat
  | [] => d
  | e :: es => lastTime e.time es

/-- The clock readings `d, e₁.time, e₂.time, …` are nondecreasing.  This is
the real-world property of successive `datetime.utcnow()` readings. -/
def monoFrom (d : Nat) : List Event → Bool
  | [] => true
  | e :: es => decide (d ≤ e.time) && monoFrom e.time es

/-- Whether one call of `check_for_anomalies` fires an alert: the event is
an error and the window, after prune and append, holds at least
`error_burst` timestamps (src/main.py line 68). -/
def stepEmits (errs : List Nat) (e : Event) : Bool :=
  decide (e.level = "ERROR") &&
    decide (error_burst ≤
      (errs.filter (fun t => decide (e.time < t + burst_window))).length + 1)

/-- Number of alerts fired while a sequence of detector calls runs. -/
def runAlertCount (errs : List Nat) : List Event → Nat
  | [] => 0
  | e :: es =>
      (if stepEmits errs e then 1 else 0) + runAlertCount (stepWindow errs e) es

lemma check_recent_errors (d : LogDict) (now : Nat) (s : ServerState) :
    (check_for_anomalies d now s).1.recent_errors =
      stepWindow s.recent_errors ⟨d.level, now⟩ := by
  unfold check_for_anomalies stepWindow
  by_cases h : d.level = "ERROR"
  · simp only [h, if_true]
    split <;> rfl
  · simp [h]

lemma check_alerts_length (d : LogDict) (now : Nat) (s : ServerState) :
    (check_for_anomalies d now s).1.alerts.length =
      s.alerts.length +
        (if stepEmits s.recent_errors ⟨d.level, now⟩ then 1 else 0) := by
  unfold check_for_anomalies stepEmits
  by_cases h : d.level = "ERROR" <;> simp [h, create_alert]
  split <;> rename_i hlen <;> simp_all

lemma check_logs (d : LogDict) (now : Nat) (s : ServerState) :
    (check_for_anomalies d now s).1.logs = s.logs := by
  unfold check_for_anomalies
  by_cases h : d.level = "ERROR"
  · simp only [h, if_true]
    split <;> rfl
  · simp [h]

lemma ingest_recent_errors (s : ServerState) (r : LogCreate × Nat) :
    (ingest s r).recent_errors = stepWindow s.recent_errors (reqEvent r) := by
  unfold ingest create_log
  rw [check_recent_errors]
  rfl

lemma ingest_alerts_length (s : ServerState) (r : LogCreate × Nat) :
    (ingest s r).alerts.length =
      s.alerts.length +
        (if stepEmits s.recent_errors (reqEvent r) then 1 else 0) := by
  unfold ingest create_log
  rw [check_alerts_length]
  rfl

lemma foldl_recent_errors (s : ServerState) (reqs : List (LogCreate × Nat)) :
    (reqs.foldl ingest s).recent_errors =
      runWindow s.recent_errors (reqs.map reqEvent) := by
  induction reqs generalizing s with
  | nil => rfl
  | cons r rest ih =>
      simp only [List.foldl_cons, List.map_cons, runWindow, List.foldl_cons]
      rw [ih, ← ingest_recent_errors]
      rfl

lemma foldl_alerts_length (s : ServerState) (reqs : List (LogCreate × Nat)) :
    (reqs.foldl ingest s).alerts.length =
      s.alerts.length + runAlertCount s.recent_errors (reqs.map reqEvent) := by
  induction reqs generalizing s with
  | nil => simp [runAlertCount]
  | cons r rest ih =>
      simp only [List.foldl_cons, List.map_cons, runAlertCount]
      rw [ih, ingest_alerts_length, ingest_recent_errors]
      omega

lemma filter_filter_of_imp (p q : Nat → Bool)
    (h : ∀ t, p t = true → q t = true) :
    ∀ l : List Nat, (l.filter q).filter p = l.filter p := by
  intro l
  induction l with
  | nil => rfl
  | cons a l ih =>
      by_cases hq : q a = true
      · by_cases hp : p a = true
        · simp [List.filter_cons, hq, hp, ih]
        · simp [List.filter_cons, hq, hp, ih]
      · have hp : p a = false := by
          cases hpa : p a with
          | false => rfl
          | true => exact absurd (h a hpa) hq
        simp [List.filter_cons, hq, hp, ih]

lemma monoFrom_le_lastTime (d : Nat) (es : List Event)
    (h : monoFrom d es = true) : d ≤ lastTime d es := by
  induction es generalizing d with
  | nil => exact Nat.le_refl d
  | cons e es ih =>
      simp only [monoFrom, Bool.and_eq_true, decide_eq_true_eq] at h
      exact Nat.le_trans h.1 (ih e.time h.2)

/-- Characterization of the sliding window: processing a nonempty monotone
sequence of events from any starting window leaves exactly the timestamps
(initial ones and error arrivals alike) that are strictly inside the
`burst_window` of the last processed event's clock reading. -/
lemma runWindow_eq_filter (e : Event) (rest : List Event) (errs : List Nat)
    (h : monoFrom e.time rest = true) :
    runWindow errs (e :: rest) =
      (errs ++ errorTimes (e :: rest)).filter
        (fun t => decide (lastTime e.time rest < t + burst_window)) := by
  induction rest generalizing e errs with
  | nil =>
      simp only [runWindow, List.foldl_cons, List.foldl_nil, stepWindow,
        lastTime, errorTimes]
      by_cases he : e.level = "ERROR"
      · simp [he, List.filter_append, List.filter_cons,
          Nat.lt_add_of_pos_right (by decide : 0 < burst_window)]
      · simp [he, List.filter_append]
  | cons e2 rest2 ih =>
      simp only [monoFrom, Bool.and_eq_true, decide_eq_true_eq] at h
      have hlast : lastTime e.time (e2 :: rest2) = lastTime e2.time rest2 := rfl
      have hstep : runWindow errs (e :: e2 :: rest2) =
          runWindow (stepWindow errs e) (e2 :: rest2) := rfl
      rw [hstep, ih e2 (stepWindow errs e) h.2, hlast]
      have hET : errorTimes (e :: e2 :: rest2) =
          (if e.level = "ERROR" then [e.time] else []) ++
            errorTimes (e2 :: rest2) := by
        by_cases he : e.level = "ERROR" <;> simp [errorTimes, he]
      rw [hET]
      have hL : e.time ≤ lastTime e2.time rest2 :=
        Nat.le_trans h.1 (monoFrom_le_lastTime e2.time rest2 h.2)
      have himp : ∀ t : Nat,
          decide (lastTime e2.time rest2 < t + burst_window) = true →
          decide (e.time < t + burst_window) = true := by
        intro t ht
        simp only [decide_eq_true_eq] at ht ⊢
        omega
      by_cases he : e.level = "ERROR"
      · simp only [stepWindow, he, if_pos, if_true]
        rw [List.filter_append, List.filter_append, List.filter_append,
          filter_filter_of_imp _ _ himp]
        rw [List.append_assoc, ← List.filter_append]
      · simp only [stepWindow, he, if_neg, if_false]
        rw [List.filter_append,
          filter_filter_of_imp _ _ himp]
        simp [he]

/-! Sample request bodies and connections used by witnesses. -/

/-- A sample INFO request body. -/
def infoLog : LogCreate := ⟨"INFO", "auth", "login ok", none, none⟩

/-- A sample WARNING request body. -/
def warnLog : LogCreate := ⟨"WARNING", "auth", "slow response", none, none⟩

/-- A sample ERROR request body. -/
def errLog : LogCreate := ⟨"ERROR", "auth", "db down", some "E42", none⟩

/-- A sample broadcast payload. -/
def sampleMsg : BroadcastMsg := ⟨"new_log", errLog.toDict⟩

/-- An observer whose channel is closed: delivery to it raises. -/
def closedConn : Conn := ⟨1, true⟩

/-- Healthy observers. -/
def openConn1 : Conn := ⟨2, false⟩

/-- Second healthy observer. -/
def openConn2 : Conn := ⟨3, false⟩

lemma broadcastLoop_eq (message : BroadcastMsg) (l : List Conn) :
    broadcastLoop message l =
      ((l.filter (fun c => !c.closed)).map (fun c => (c.cid, message)),
       (l.filter (fun c => c.closed)).length) := by
  induction l with
  | nil => rfl
  | cons c rest ih =>
      by_cases h : c.closed = true <;>
        simp [broadcastLoop, ih, List.filter_cons, h]

lemma length_filter_not_add (l : List Conn) :
    (l.filter (fun c => !c.closed)).length +
      (l.filter (fun c => c.closed)).length = l.length := by
  induction l with
  | nil => rfl
  | cons c rest ih =>
      by_cases h : c.closed = true <;> simp [List.filter_cons, h] <;> omega

/-- C1: starting from process start, after serving any nonempty sequence of
requests whose clock readings are nondecreasing, `recent_errors` holds
exactly the arrival times of the ERROR-level requests that are strictly
within `burst_window` seconds of the clock reading of the most recently
processed request (the prune keeps `t` iff `t > now - 60 s`), in arrival
order, and nothing else. -/
theorem sliding_window_state (r0 : LogCreate × Nat) (rs : List (LogCreate × Nat))
    (h : monoFrom r0.2 (rs.map reqEvent) = true) :
    (run_requests (r0 :: rs)).recent_errors =
      (errorTimes ((r0 :: rs).map reqEvent)).filter
        (fun t => decide (lastTime r0.2 (rs.map reqEvent) < t + burst_window)) := by
  show ((r0 :: rs).foldl ingest initialState).recent_errors = _
  rw [foldl_recent_errors]
  simp only [List.map_cons]
  show runWindow [] _ = _
  rw [runWindow_eq_filter (reqEvent r0) (rs.map reqEvent) [] h]
  rfl

/-- Witness for C1 at a concrete mixed sequence. -/
theorem sliding_window_state_witness :
    monoFrom 0 ([(errLog, 10), (errLog, 50), (warnLog, 80)].map reqEvent) = true ∧
    (run_requests ((infoLog, 0) :: [(errLog, 10), (errLog, 50), (warnLog, 80)])).recent_errors =
      (errorTimes (((infoLog, 0) :: [(errLog, 10), (errLog, 50), (warnLog, 80)]).map reqEvent)).filter
        (fun t => decide (lastTime 0 ([(errLog, 10), (errLog, 50), (warnLog, 80)].map reqEvent) < t + burst_window)) :=
  ⟨by decide,
   sliding_window_state (infoLog, 0) [(errLog, 10), (errLog, 50), (warnLog, 80)] (by decide)⟩

/-- C5 counterexample: an observer whose delivery raises is still in
`active_connections` after `broadcast_message` returns — the broadcast loop
only logs the failure (src/main.py lines 52-53) and never removes the
connection. -/
theorem failed_observer_not_removed_cex :
    closedConn.closed = true ∧
    closedConn ∈ (broadcast_message sampleMsg [closedConn]).2.2 ∧
    (broadcast_message sampleMsg [closedConn]).2.1 = 1 := by
  decide

/-- C5 (amended): a failed delivery is swallowed and logged, and
`broadcast_message` leaves `active_connections` unchanged — failing
observers are removed only when their own websocket handler exits
(src/main.py lines 104-106), never by the broadcast. -/
theorem broadcast_leaves_connections (message : BroadcastMsg) (conns : List Conn) :
    (broadcast_message message conns).2.2 = conns ∧
    (broadcast_message message conns).2.1 =
      (conns.filter (fun c => c.closed)).length := by
  refine ⟨rfl, ?_⟩
  show (broadcastLoop message conns).2 = _
  rw [broadcastLoop_eq]

/-- C6: when exactly one of the connected observers raises on delivery, the
message is still delivered to each of the other N-1 observers, and the
failure surfaces only as one logged error, not as an exception to the
caller (the loop of src/main.py lines 49-53 returns normally). -/
theorem broadcast_one_failure_delivers_rest (message : BroadcastMsg)
    (conns : List Conn)
    (h : (conns.filter (fun c => c.closed)).length = 1) :
    (broadcast_message message conns).1 =
      (conns.filter (fun c => !c.closed)).map (fun c => (c.cid, message)) ∧
    (broadcast_message message conns).1.length + 1 = conns.length ∧
    (broadcast_message message conns).2.1 = 1 := by
  have hb := broadcastLoop_eq message conns
  refine ⟨?_, ?_, ?_⟩
  · show (broadcastLoop message conns).1 = _
    rw [hb]
  · show (broadcastLoop message conns).1.length + 1 = _
    rw [hb]
    simp only [List.length_map]
    have := length_filter_not_add conns
    omega
  · show (broadcastLoop message conns).2 = 1
    rw [hb]
    exact h

/-- Witness for C6 with three observers, the middle one closed. -/
theorem broadcast_one_failure_witness :
    (([openConn1, closedConn, openConn2].filter (fun c => c.closed)).length = 1) ∧
    ((broadcast_message sampleMsg [openConn1, closedConn, openConn2]).1 =
      ([openConn1, closedConn, openConn2].filter (fun c => !c.closed)).map
        (fun c => (c.cid, sampleMsg)) ∧
     (broadcast_message sampleMsg [openConn1, closedConn, openConn2]).1.length + 1 = 3 ∧
     (broadcast_message sampleMsg [openConn1, closedConn, openConn2]).2.1 = 1) :=
  ⟨by decide,
   broadcast_one_failure_delivers_rest sampleMsg [openConn1, closedConn, openConn2]
     (by decide)⟩

/-- C7: for a non-ERROR event the detector only prunes: the resulting state
is the old one with `recent_errors` filtered to the window — no timestamp is
appended, no alert row is created, and `is_anomaly` is False. -/
theorem non_error_prunes_only (d : LogDict) (now : Nat) (s : ServerState)
    (h : d.level ≠ "ERROR") :
    check_for_anomalies d now s =
      ({ s with recent_errors :=
          s.recent_errors.filter (fun t => decide (now < t + burst_window)) },
       false) := by
  unfold check_for_anomalies
  simp [h]

/-- Witness for C7 on a WARNING dict and a populated window. -/
theorem non_error_prunes_only_witness :
    warnLog.toDict.level ≠ "ERROR" ∧
    check_for_anomalies warnLog.toDict 200 ⟨[], [], [100, 170]⟩ =
      ({ logs := [], alerts := [],
         recent_errors :=
           [100, 170].filter (fun t => decide (200 < t + burst_window)) },
       false) :=
  ⟨by decide, non_error_prunes_only warnLog.toDict 200 ⟨[], [], [100, 170]⟩ (by decide)⟩

/-- C8: when the synchronous commit of the log row fails, the request ends
in a server error and no background task is dispatched (the error case
carries no task list); when the commit succeeds, the row is stored and
exactly the anomaly-check and broadcast tasks are dispatched, in that
order — so both side effects happen only after the row is durably
committed. -/
theorem commit_failure_dispatches_nothing (log : LogCreate) (now : Nat)
    (s : ServerState) :
    create_log_request true log now s = Except.error "database commit failed" ∧
    create_log_request false log now s =
      Except.ok ({ s with logs := s.logs ++
          [{ id := s.logs.length + 1, timestamp := now, level := log.level,
             service := log.service, message := log.message,
             error_code := log.error_code, stack_trace := log.stack_trace }] },
        [TaskKind.detect log.toDict,
         TaskKind.broadcast { type := "new_log", data := log.toDict }]) :=
  ⟨rfl, rfl⟩

/-- C10: the message handed to the broadcaster is exactly
`{"type": "new_log", "data": log.dict()}`: its data part carries the five
client-submitted fields, has no `"id"` key, and does not depend on the
database state or the clock — hence never on the stored record's
server-assigned id or timestamp. -/
theorem broadcast_payload_client_fields (log : LogCreate) (now now2 : Nat)
    (s s2 : ServerState) :
    (create_log log now s).2.2 = { type := "new_log", data := log.toDict } ∧
    (create_log log now s).2.2.data.id = none ∧
    (create_log log now s).2.2 = (create_log log now2 s2).2.2 :=
  ⟨rfl, rfl, rfl⟩

lemma check_alerts_all_unresolved (d : LogDict) (now : Nat) (s : ServerState)
    (h : s.alerts.all
      (fun a => decide (a.is_resolved = false ∧ a.resolved_at = none)) = true) :
    (check_for_anomalies d now s).1.alerts.all
      (fun a => decide (a.is_resolved = false ∧ a.resolved_at = none)) = true := by
  unfold check_for_anomalies
  by_cases hl : d.level = "ERROR"
  · simp only [hl, if_true]
    split
    · simpa [create_alert, List.all_append] using h
    · exact h
  · simp only [hl, if_false]
    exact h

lemma foldl_alerts_all_unresolved (reqs : List (LogCreate × Nat)) :
    ∀ s : ServerState,
      s.alerts.all
        (fun a => decide (a.is_resolved = false ∧ a.resolved_at = none)) = true →
      (reqs.foldl ingest s).alerts.all
        (fun a => decide (a.is_resolved = false ∧ a.resolved_at = none)) = true := by
  induction reqs with
  | nil => intro s h; exact h
  | cons r rest ih =>
      intro s h
      exact ih (ingest s r) (check_alerts_all_unresolved _ _ _ h)

/-- C9: every alert in any state reachable from process start has
`is_resolved = False` and `resolved_at = None` (the table defaults of
src/database.py lines 35-36, never overridden — no endpoint resolves an
alert), so `active_alerts` always equals `total_alerts` in the alert
analytics. -/
theorem alerts_never_resolved (reqs : List (LogCreate × Nat)) :
    ((run_requests reqs).alerts.all
        (fun a => decide (a.is_resolved = false ∧ a.resolved_at = none)) = true) ∧
    (get_alert_analytics (run_requests reqs)).active_alerts =
      (get_alert_analytics (run_requests reqs)).total_alerts := by
  have hall := foldl_alerts_all_unresolved reqs initialState rfl
  refine ⟨hall, ?_⟩
  show ((run_requests reqs).alerts.filter
      (fun a => decide (a.is_resolved = false))).length =
    (run_requests reqs).alerts.length
  have hmem : ∀ a ∈ (run_requests reqs).alerts,
      (fun a : AlertRecord => decide (a.is_resolved = false)) a = true := by
    intro a ha
    have := List.all_eq_true.mp hall a ha
    simp only [decide_eq_true_eq] at this ⊢
    exact this.1
  rw [List.filter_eq_self.mpr hmem]

/-- C4: the burst detector receives `log.dict()` of the request body
(src/main.py line 117), which has no `"id"` key, so `log.get("id", 0)`
(line 73) is always the default 0: on five ERROR ingestions the stored rows
get server-assigned ids 1..5 and the alert triggered by the fifth carries
`log_id = 0`, not the triggering row's id 5. -/
theorem alert_log_id_always_zero :
    ((run_requests [(errLog, 0), (errLog, 1), (errLog, 2), (errLog, 3),
        (errLog, 4)]).alerts.map (fun a => a.log_id) = [0]) ∧
    ((run_requests [(errLog, 0), (errLog, 1), (errLog, 2), (errLog, 3),
        (errLog, 4)]).logs.map (fun l => l.id) = [1, 2, 3, 4, 5]) := by
  decide

lemma run_requests_alerts_length (reqs : List (LogCreate × Nat)) :
    (run_requests reqs).alerts.length = runAlertCount [] (reqs.map reqEvent) := by
  have h := foldl_alerts_length initialState reqs
  simpa [run_requests, initialState] using h

lemma stepEmits_false_of_pruned (errs : List Nat) (e : Event)
    (h : (errs.filter
        (fun t => decide (e.time < t + burst_window))).length + 1 < error_burst) :
    stepEmits errs e = false := by
  unfold stepEmits
  have hd : decide (error_burst ≤
      (errs.filter (fun t => decide (e.time < t + burst_window))).length + 1)
        = false := by
    simp only [decide_eq_false_iff_not]
    omega
  rw [hd, Bool.and_false]

lemma stepWindow_length_le (errs : List Nat) (e : Event) :
    (stepWindow errs e).length ≤ errs.length + 1 := by
  unfold stepWindow
  have hf := List.length_filter_le
    (fun t => decide (e.time < t + burst_window)) errs
  by_cases h : e.level = "ERROR" <;> simp [h] <;> omega

/-- C2 counterexample: five ERROR events whose arrival times all lie within
60 seconds of each other (every pairwise gap is at most 60, the largest —
between the first and the last arrival — being exactly 60) produce zero
alerts: at the fifth arrival the prune of src/main.py line 62 keeps only
timestamps strictly greater than `now - 60 s`, so the first arrival has
just left the window and the count stays at 4 < 5. -/
theorem error_burst_boundary_cex :
    (([0, 15, 30, 45, 60] : List Nat).all
      (fun p => ([0, 15, 30, 45, 60] : List Nat).all
        (fun q => decide (p ≤ q + 60))) = true) ∧
    (run_requests [(errLog, 0), (errLog, 15), (errLog, 30), (errLog, 45),
        (errLog, 60)]).alerts.length = 0 := by
  decide

/-- C2 (amended): with threshold 5 and window 60 s, five ERROR events whose
arrival times lie strictly within 60 seconds of each other (last minus
first < 60, matching the strict prune `t > now - 60 s`) produce at least
one alert, and five ERROR events spread across 70 seconds (last minus first
= 70, so no five of them fall in any 60-second window ending at an arrival)
produce zero alerts. -/
theorem error_burst_threshold (l0 l1 l2 l3 l4 : LogCreate)
    (t0 t1 t2 t3 t4 : Nat)
    (h0 : l0.level = "ERROR") (h1 : l1.level = "ERROR")
    (h2 : l2.level = "ERROR") (h3 : l3.level = "ERROR")
    (h4 : l4.level = "ERROR")
    (m01 : t0 ≤ t1) (m12 : t1 ≤ t2) (m23 : t2 ≤ t3) (m34 : t3 ≤ t4) :
    (t4 < t0 + burst_window →
      1 ≤ (run_requests [(l0, t0), (l1, t1), (l2, t2), (l3, t3),
        (l4, t4)]).alerts.length) ∧
    (t4 = t0 + 70 →
      (run_requests [(l0, t0), (l1, t1), (l2, t2), (l3, t3),
        (l4, t4)]).alerts.length = 0) := by
  have hrun := run_requests_alerts_length
    [(l0, t0), (l1, t1), (l2, t2), (l3, t3), (l4, t4)]
  simp only [List.map_cons, List.map_nil, reqEvent, h0, h1, h2, h3, h4] at hrun
  constructor
  · intro hw
    rw [hrun]
    have k01 : t1 < t0 + burst_window := by unfold burst_window at *; omega
    have k02 : t2 < t0 + burst_window := by unfold burst_window at *; omega
    have k12 : t2 < t1 + burst_window := by unfold burst_window at *; omega
    have k03 : t3 < t0 + burst_window := by unfold burst_window at *; omega
    have k13 : t3 < t1 + burst_window := by unfold burst_window at *; omega
    have k23 : t3 < t2 + burst_window := by unfold burst_window at *; omega
    have k04 : t4 < t0 + burst_window := by unfold burst_window at *; omega
    have k14 : t4 < t1 + burst_window := by unfold burst_window at *; omega
    have k24 : t4 < t2 + burst_window := by unfold burst_window at *; omega
    have k34 : t4 < t3 + burst_window := by unfold burst_window at *; omega
    simp [runAlertCount, stepWindow, stepEmits, error_burst,
      k01, k02, k12, k03, k13, k23, k04, k14, k24, k34]
  · intro hspan
    rw [hrun]
    have hm : monoFrom t0 [(⟨"ERROR", t1⟩ : Event), ⟨"ERROR", t2⟩,
        ⟨"ERROR", t3⟩] = true := by
      simp [monoFrom, m01, m12, m23]
    have hw4 : runWindow [] [(⟨"ERROR", t0⟩ : Event), ⟨"ERROR", t1⟩,
        ⟨"ERROR", t2⟩, ⟨"ERROR", t3⟩] =
        ([t0, t1, t2, t3].filter
          (fun t => decide (t3 < t + burst_window))) := by
      rw [runWindow_eq_filter ⟨"ERROR", t0⟩
        [⟨"ERROR", t1⟩, ⟨"ERROR", t2⟩, ⟨"ERROR", t3⟩] [] hm]
      simp [errorTimes, lastTime]
    have himp : ∀ t : Nat, decide (t4 < t + burst_window) = true →
        decide (t3 < t + burst_window) = true := by
      intro t ht
      simp only [decide_eq_true_eq] at ht ⊢
      omega
    have hpruned : (((runWindow [] [(⟨"ERROR", t0⟩ : Event), ⟨"ERROR", t1⟩,
        ⟨"ERROR", t2⟩, ⟨"ERROR", t3⟩]).filter
          (fun t => decide (t4 < t + burst_window))).length + 1 < error_burst) := by
      rw [hw4, filter_filter_of_imp _ _ himp]
      have hns : ([t0, t1, t2, t3].filter
          (fun t => decide (t4 < t + burst_window))) =
          ([t1, t2, t3].filter (fun t => decide (t4 < t + burst_window))) := by
        have h0f : decide (t4 < t0 + burst_window) = false := by
          simp only [decide_eq_false_iff_not, burst_window]
          omega
        simp [List.filter_cons, h0f]
      rw [hns]
      have := List.length_filter_le
        (fun t => decide (t4 < t + burst_window)) [t1, t2, t3]
      simp only [List.length_cons, List.length_nil] at this
      unfold error_burst
      omega
    have b0 : stepEmits [] ⟨"ERROR", t0⟩ = false := by
      apply stepEmits_false_of_pruned
      simp [error_burst]
    have hw1 : stepWindow [] (⟨"ERROR", t0⟩ : Event) = [t0] := by
      simp [stepWindow]
    have b1 : stepEmits [t0] ⟨"ERROR", t1⟩ = false := by
      apply stepEmits_false_of_pruned
      show (List.filter (fun t => decide (t1 < t + burst_window))
        [t0]).length + 1 < error_burst
      have := List.length_filter_le
        (fun t => decide (t1 < t + burst_window)) [t0]
      simp only [List.length_cons, List.length_nil] at this
      unfold error_burst
      omega
    have b2 : stepEmits (stepWindow [t0] ⟨"ERROR", t1⟩) ⟨"ERROR", t2⟩ = false := by
      apply stepEmits_false_of_pruned
      show (List.filter (fun t => decide (t2 < t + burst_window))
        (stepWindow [t0] ⟨"ERROR", t1⟩)).length + 1 < error_burst
      have h2l := stepWindow_length_le [t0] ⟨"ERROR", t1⟩
      have := List.length_filter_le
        (fun t => decide (t2 < t + burst_window))
        (stepWindow [t0] ⟨"ERROR", t1⟩)
      simp only [List.length_cons, List.length_nil] at h2l
      unfold error_burst
      omega
    have b3 : stepEmits (stepWindow (stepWindow [t0] ⟨"ERROR", t1⟩)
        ⟨"ERROR", t2⟩) ⟨"ERROR", t3⟩ = false := by
      apply stepEmits_false_of_pruned
      show (List.filter (fun t => decide (t3 < t + burst_window))
        (stepWindow (stepWindow [t0] ⟨"ERROR", t1⟩) ⟨"ERROR", t2⟩)).length + 1
          < error_burst
      have h2l := stepWindow_length_le [t0] ⟨"ERROR", t1⟩
      have h3l := stepWindow_length_le (stepWindow [t0] ⟨"ERROR", t1⟩)
        ⟨"ERROR", t2⟩
      have := List.length_filter_le
        (fun t => decide (t3 < t + burst_window))
        (stepWindow (stepWindow [t0] ⟨"ERROR", t1⟩) ⟨"ERROR", t2⟩)
      simp only [List.length_cons, List.length_nil] at h2l
      unfold error_burst
      omega
    have b4 : stepEmits (runWindow [] [(⟨"ERROR", t0⟩ : Event), ⟨"ERROR", t1⟩,
        ⟨"ERROR", t2⟩, ⟨"ERROR", t3⟩]) ⟨"ERROR", t4⟩ = false :=
      stepEmits_false_of_pruned _ _ hpruned
    have hw4run : stepWindow (stepWindow (stepWindow [t0]
        (⟨"ERROR", t1⟩ : Event)) ⟨"ERROR", t2⟩) ⟨"ERROR", t3⟩ =
        runWindow [] [(⟨"ERROR", t0⟩ : Event), ⟨"ERROR", t1⟩,
          ⟨"ERROR", t2⟩, ⟨"ERROR", t3⟩] := by
      rw [← hw1]
      rfl
    simp only [runAlertCount, hw1, hw4run, b0, b1, b2, b3, b4,
      if_false, Bool.false_eq_true]

/-- Witness for C2 (amended): five ERROR events at seconds 0,1,2,3,4 (span
4 < 60) raise an alert; five ERROR events at seconds 0,10,30,50,70 (span
exactly 70) raise none. -/
theorem error_burst_threshold_witness :
    (1 ≤ (run_requests [(errLog, 0), (errLog, 1), (errLog, 2), (errLog, 3),
        (errLog, 4)]).alerts.length) ∧
    ((run_requests [(errLog, 0), (errLog, 10), (errLog, 30), (errLog, 50),
        (errLog, 70)]).alerts.length = 0) :=
  ⟨(error_burst_threshold errLog errLog errLog errLog errLog 0 1 2 3 4
      rfl rfl rfl rfl rfl (by decide) (by decide) (by decide) (by decide)).1
      (by decide),
   (error_burst_threshold errLog errLog errLog errLog errLog 0 10 30 50 70
      rfl rfl rfl rfl rfl (by decide) (by decide) (by decide) (by decide)).2
      (by decide)⟩

/-- The ingestion sequence of the spec's concrete scenario: two WARNING
events then five ERROR events, same service and message, at seven clock
readings. -/
def scenarioC3 (svc m : String) (t0 t1 t2 t3 t4 t5 t6 : Nat) :
    List (LogCreate × Nat) :=
  [(⟨"WARNING", svc, m, none, none⟩, t0),
   (⟨"WARNING", svc, m, none, none⟩, t1),
   (⟨"ERROR", svc, m, none, none⟩, t2),
   (⟨"ERROR", svc, m, none, none⟩, t3),
   (⟨"ERROR", svc, m, none, none⟩, t4),
   (⟨"ERROR", svc, m, none, none⟩, t5),
   (⟨"ERROR", svc, m, none, none⟩, t6)]

/-- C3: ingesting two WARNING events followed by five ERROR events (same
service, same message) within a 10-second span creates exactly one alert,
of severity HIGH, and afterwards the log analytics report 7 total logs,
5 errors and 2 warnings while the alert analytics report 1 active (and 1
total) alert. -/
theorem warning_error_burst_scenario (svc m : String)
    (t0 t1 t2 t3 t4 t5 t6 : Nat)
    (m01 : t0 ≤ t1) (m12 : t1 ≤ t2) (m23 : t2 ≤ t3) (m34 : t3 ≤ t4)
    (m45 : t4 ≤ t5) (m56 : t5 ≤ t6) (hspan : t6 ≤ t0 + 10) :
    ((run_requests (scenarioC3 svc m t0 t1 t2 t3 t4 t5 t6)).alerts.map
        (fun a => a.severity) = ["HIGH"]) ∧
    get_log_analytics (run_requests (scenarioC3 svc m t0 t1 t2 t3 t4 t5 t6)) =
      ⟨7, 5, 2⟩ ∧
    get_alert_analytics (run_requests (scenarioC3 svc m t0 t1 t2 t3 t4 t5 t6)) =
      ⟨1, 1⟩ := by
  have k23 : t3 < t2 + burst_window := by unfold burst_window at *; omega
  have k24 : t4 < t2 + burst_window := by unfold burst_window at *; omega
  have k34 : t4 < t3 + burst_window := by unfold burst_window at *; omega
  have k25 : t5 < t2 + burst_window := by unfold burst_window at *; omega
  have k35 : t5 < t3 + burst_window := by unfold burst_window at *; omega
  have k45 : t5 < t4 + burst_window := by unfold burst_window at *; omega
  have k26 : t6 < t2 + burst_window := by unfold burst_window at *; omega
  have k36 : t6 < t3 + burst_window := by unfold burst_window at *; omega
  have k46 : t6 < t4 + burst_window := by unfold burst_window at *; omega
  have k56 : t6 < t5 + burst_window := by unfold burst_window at *; omega
  refine ⟨?_, ?_, ?_⟩ <;>
    simp [scenarioC3, run_requests, ingest, create_log, check_for_anomalies,
      create_alert, LogCreate.toDict, LogDict.get_id, initialState,
      get_log_analytics, get_alert_analytics, error_burst,
      k23, k24, k34, k25, k35, k45, k26, k36, k46, k56]

/-- Witness for C3 at service "api", message "boom", seconds 0..6. -/
theorem warning_error_burst_scenario_witness :
    ((run_requests (scenarioC3 "api" "boom" 0 1 2 3 4 5 6)).alerts.map
        (fun a => a.severity) = ["HIGH"]) ∧
    get_log_analytics (run_requests (scenarioC3 "api" "boom" 0 1 2 3 4 5 6)) =
      ⟨7, 5, 2⟩ ∧
    get_alert_analytics (run_requests (scenarioC3 "api" "boom" 0 1 2 3 4 5 6)) =
      ⟨1, 1⟩ :=
  warning_error_burst_scenario "api" "boom" 0 1 2 3 4 5 6
    (by decide) (by decide) (by decide) (by decide) (by decide) (by decide)
    (by decide)

end LogAnalytics
